import Mathlib

/-!
Shallow embedding of the version-discovery ("check") core of the
registry-image resource (src/commands/check.go).

The registry transport (go-containerregistry's remote.Head / remote.Get)
is modelled as an oracle mapping a verb and a reference to a result.
Stateful aspects (which endpoints were queried, with which credentials,
what was logged) are made explicit by threading event logs through the
functions, so that temporal claims (mirror-before-origin, never-queried)
become statements about the produced log.
-/

/-- Basic username/password credentials (resource.BasicCredentials). -/
structure BasicCredentials where
  username : String
  password : String
deriving DecidableEq

/-- A version: an opaque content digest string (resource.Version). -/
structure Version where
  digest : String
deriving DecidableEq

/-- A manifest digest (v1.Hash): algorithm and hex parts. -/
structure Hash where
  algorithm : String
  hex : String
deriving DecidableEq

instance : Inhabited Hash := ⟨⟨"", ""⟩⟩

/-- v1.Hash.String(): "algorithm:hex". The zero hash renders as ":". -/
def Hash.render (h : Hash) : String := h.algorithm ++ ":" ++ h.hex

/-- A repository: a registry host plus a repository path (name.Repository,
keeping only the two components the check logic reads). -/
structure Repository where
  registry : String
  repo : String
deriving DecidableEq

/-- name.DefaultRegistry of go-containerregistry. -/
def defaultRegistry : String := "index.docker.io"

/-- A fully qualified reference: a tag or a digest inside a repository
(name.Tag / name.Digest). -/
inductive Reference where
  | tag (repo : Repository) (t : String)
  | digest (repo : Repository) (d : String)
deriving DecidableEq

/-- The repository of a reference. -/
def Reference.repoOf : Reference → Repository
  | Reference.tag r _ => r
  | Reference.digest r _ => r

/-- Errors returned by the registry transport: a structured transport
error carrying an HTTP status code (transport.Error), or any other
error value. -/
inductive RegError where
  | transport (statusCode : Nat)
  | other (msg : String)
deriving DecidableEq

/-- Rendering of a registry error to a message string. -/
def RegError.render : RegError → String
  | RegError.transport c => "transport error: status code " ++ toString c
  | RegError.other m => m

/-- Result of one remote.Head / remote.Get call. -/
inductive RegResult where
  | ok (digest : Hash)
  | err (e : RegError)
deriving DecidableEq

/-- The two manifest-resolution verbs. -/
inductive Verb where
  | head
  | get
deriving DecidableEq

/-- The registry oracle: what the remote registry answers for each verb
and reference (remote.Head / remote.Get behaviour, with auth and the
platform selector fixed for the run). -/
structure Registry where
  respond : Verb → Reference → RegResult

/-- One network request issued against the registry, recording the verb,
the reference and the authentication attached (none = anonymous). -/
structure Query where
  verb : Verb
  ref : Reference
  auth : Option BasicCredentials
deriving DecidableEq

/-- Result triple of headOrGet: (digest, found, err). -/
structure ResolveResult where
  digest : Hash
  found : Bool
  err : Option RegError
deriving DecidableEq

/-- checkMissingManifest: an error counts as "missing manifest" iff it is
a structured transport error with status code 404 (http.StatusNotFound). -/
def checkMissingManifest : RegError → Bool
  | RegError.transport c => c == 404
  | RegError.other _ => false

/-- headOrGet: HEAD the reference; a 404 from HEAD is returned as
found=false with no error; any other HEAD failure falls back to GET,
whose 404 is also found=false and whose other errors are hard errors.
The second component logs the requests issued, in order. -/
def headOrGet (reg : Registry) (auth : Option BasicCredentials)
    (ref : Reference) : ResolveResult × List Query :=
  match reg.respond Verb.head ref with
  | RegResult.ok d => (⟨d, true, none⟩, [⟨Verb.head, ref, auth⟩])
  | RegResult.err e =>
    if checkMissingManifest e then
      (⟨default, false, none⟩, [⟨Verb.head, ref, auth⟩])
    else
      match reg.respond Verb.get ref with
      | RegResult.ok d =>
        (⟨d, true, none⟩, [⟨Verb.head, ref, auth⟩, ⟨Verb.get, ref, auth⟩])
      | RegResult.err e2 =>
        if checkMissingManifest e2 then
          (⟨default, false, none⟩, [⟨Verb.head, ref, auth⟩, ⟨Verb.get, ref, auth⟩])
        else
          (⟨default, false, some e2⟩, [⟨Verb.head, ref, auth⟩, ⟨Verb.get, ref, auth⟩])

/-- The authentication option performCheck attaches to its requests:
remote.WithAuth(basic) is appended iff both username and password are
non-empty; otherwise requests go out anonymous. -/
def authOf (principal : BasicCredentials) : Option BasicCredentials :=
  if principal.username ≠ "" ∧ principal.password ≠ "" then some principal else none

/-- performCheck: resolve the tag reference; on a hard error return it;
if found and a previous version with a different digest was supplied,
also resolve the digest reference built from it against the same
repository, prepending the previous version when still retrievable;
finally append the current digest when found. -/
def performCheck (reg : Registry) (principal : BasicCredentials)
    (version : Option Version) (repo : Repository) (tag : String) :
    (List Version × Option RegError) × List Query :=
  let auth := authOf principal
  let r1 := headOrGet reg auth (Reference.tag repo tag)
  match r1.1.err with
  | some e => (([], some e), r1.2)
  | none =>
    match version with
    | some v =>
      if r1.1.found && v.digest != r1.1.digest.render then
        let r2 := headOrGet reg auth (Reference.digest repo v.digest)
        match r2.1.err with
        | some e2 => (([], some e2), r1.2 ++ r2.2)
        | none =>
          let resp0 := if r2.1.found then [v] else []
          let resp :=
            if r1.1.found then resp0 ++ [Version.mk r1.1.digest.render] else resp0
          ((resp, none), r1.2 ++ r2.2)
      else
        ((if r1.1.found then [Version.mk r1.1.digest.render] else [], none), r1.2)
    | none =>
      ((if r1.1.found then [Version.mk r1.1.digest.render] else [], none), r1.2)

/-- Mirror configuration: a host plus its own static credentials
(resource.RegistryMirror). -/
structure RegistryMirrorConfig where
  host : String
  basicCredentials : BasicCredentials
deriving DecidableEq

/-- The source configuration, with the fields check.Execute reads. -/
structure Source where
  repository : String
  tag : Option String
  basicCredentials : BasicCredentials
  awsAccessKeyId : String
  awsSecretAccessKey : String
  awsRegion : String
  registryMirror : Option RegistryMirrorConfig
deriving DecidableEq

/-- Modelled from the spec: resource.Source.Tag() is outside src/; §3 says
the tag selector is optional and defaults to "latest". -/
def Source.tagOrLatest (s : Source) : String := s.tag.getD "latest"

/-- The world of external collaborators Execute consults: the registry
oracle, the go-containerregistry name parsers (weak and strict repository
parsing, weak registry parsing, Repository.String rendering), and the
outcome of resource.Source.AuthenticateToECR. -/
structure World where
  registry : Registry
  newRepositoryWeak : String → Except String Repository
  newRepository : String → Except String Repository
  newRegistryWeak : String → Except String String
  repositoryName : Repository → String
  ecrAuth : Bool

/-- Which call site issued a registry query. -/
inductive Endpoint where
  | mirror
  | origin
deriving DecidableEq

/-- Observable events of one Execute run, in order: the ECR credential
exchange attempt, a repository-string parse, a registry query from the
mirror or origin call site, or a warning log line. -/
inductive Event where
  | ecrAuthAttempt
  | repoParse (s : String)
  | regQuery (ep : Endpoint) (q : Query)
  | warning (msg : String)
deriving DecidableEq

/-- The warning log lines the mirror branch emits: the shadowed
performCheck error, or "tag not found" when the mirror response is empty. -/
def mirrorWarnings (mreg : String) (resp : List Version) (err : Option RegError) :
    List Event :=
  match err with
  | some e =>
    [Event.warning ("checking mirror " ++ mreg ++ " failed: get remote image: "
      ++ e.render)]
  | none =>
    if resp.isEmpty then
      [Event.warning ("checking mirror " ++ mreg ++ " failed: tag not found")]
    else []

/-- The mirror branch of Execute: re-parse the repository, swap in the
mirror host, run performCheck with the mirror credentials; a performCheck
error or empty response is only logged as a warning (the error itself is
shadowed and discarded), while reference-construction failures are fatal. -/
def mirrorAttempt (w : World) (m : RegistryMirrorConfig) (s : Source)
    (v : Option Version) (repo : Repository) :
    Except String (List Version × List Event) :=
  match w.newRepository (w.repositoryName repo) with
  | Except.error e => Except.error ("could not resolve mirror repository: " ++ e)
  | Except.ok mirror0 =>
    match w.newRegistryWeak m.host with
    | Except.error e => Except.error ("could not resolve registry: " ++ e)
    | Except.ok mreg =>
      let mirror : Repository := ⟨mreg, mirror0.repo⟩
      let r := performCheck w.registry m.basicCredentials v mirror s.tagOrLatest
      Except.ok (r.1.1,
        r.2.map (Event.regQuery Endpoint.mirror) ++ mirrorWarnings mreg r.1.1 r.1.2)

/-- The origin attempt of Execute: performCheck on the origin tag with the
origin static credentials; a hard error is fatal, naming the origin host. -/
def originStep (w : World) (s : Source) (v : Option Version) (repo : Repository) :
    Except String (List Version) × List Event :=
  let r := performCheck w.registry s.basicCredentials v repo s.tagOrLatest
  match r.1.2 with
  | some e =>
    (Except.error ("checking origin " ++ repo.registry ++ " failed: get remote image: "
       ++ e.render),
     r.2.map (Event.regQuery Endpoint.origin))
  | none => (Except.ok r.1.1, r.2.map (Event.regQuery Endpoint.origin))

/-- check.Execute after the ECR step: parse the repository; when a mirror
is configured and the repository registry is the default registry, try the
mirror first; fall through to the origin whenever the response so far is
empty. -/
def executeWithAuth (w : World) (s : Source) (v : Option Version) :
    Except String (List Version) × List Event :=
  match w.newRepositoryWeak s.repository with
  | Except.error e =>
    (Except.error ("failed to resolve repository: " ++ e), [Event.repoParse s.repository])
  | Except.ok repo =>
    match s.registryMirror with
    | some m =>
      if repo.registry = defaultRegistry then
        match mirrorAttempt w m s v repo with
        | Except.error e => (Except.error e, [Event.repoParse s.repository])
        | Except.ok (resp, mevs) =>
          if resp.isEmpty then
            let o := originStep w s v repo
            (o.1, Event.repoParse s.repository :: (mevs ++ o.2))
          else
            (Except.ok resp, Event.repoParse s.repository :: mevs)
      else
        let o := originStep w s v repo
        (o.1, Event.repoParse s.repository :: o.2)
    | none =>
      let o := originStep w s v repo
      (o.1, Event.repoParse s.repository :: o.2)

/-- check.Execute (after payload decoding): when all three AWS fields are
non-empty, perform the ECR credential exchange first and fail the whole
check if it fails; then parse and check as in executeWithAuth. -/
def Execute (w : World) (s : Source) (v : Option Version) :
    Except String (List Version) × List Event :=
  if s.awsAccessKeyId ≠ "" ∧ s.awsSecretAccessKey ≠ "" ∧ s.awsRegion ≠ "" then
    if w.ecrAuth then
      let r := executeWithAuth w s v
      (r.1, Event.ecrAuthAttempt :: r.2)
    else (Except.error "cannot authenticate with ECR", [Event.ecrAuthAttempt])
  else executeWithAuth w s v

/-- The credential mapping as the spec words it (for comparison with the
code): the static pair is attached as-is, an empty pair meaning anonymous. -/
def specAuthContext (p : BasicCredentials) : Option BasicCredentials :=
  if p.username = "" ∧ p.password = "" then none else some p

/-! Concrete instances used by witnesses and counterexamples. -/

/-- A repository on the default registry. -/
def repoA : Repository := ⟨"index.docker.io", "library/busybox"⟩

/-- A concrete digest value. -/
def hashA : Hash := ⟨"sha256", "aaaa"⟩

/-- A registry answering every request with hashA. -/
def regOkA : Registry := ⟨fun _ _ => RegResult.ok hashA⟩

/-- A tag reference used in concrete runs. -/
def refA : Reference := Reference.tag repoA "latest"

/-- A registry whose HEAD always 404s but whose GET succeeds. -/
def regHead404 : Registry :=
  ⟨fun verb _ =>
    match verb with
    | Verb.head => RegResult.err (RegError.transport 404)
    | Verb.get => RegResult.ok hashA⟩

/-- A registry failing every request with a 500 transport error. -/
def reg500 : Registry := ⟨fun _ _ => RegResult.err (RegError.transport 500)⟩

/-- A registry where every manifest is absent (404 on both verbs). -/
def regGone : Registry := ⟨fun _ _ => RegResult.err (RegError.transport 404)⟩

example : (headOrGet regOkA none refA).1 = ⟨hashA, true, none⟩ := by decide
example : (headOrGet regHead404 none refA).1 = ⟨default, false, none⟩ := by decide
example : (headOrGet reg500 none refA).1.err = some (RegError.transport 500) := by decide
example :
    (performCheck regOkA ⟨"", ""⟩ (some ⟨"sha256:bbbb"⟩) repoA "latest").1 =
      ([⟨"sha256:bbbb"⟩, ⟨"sha256:aaaa"⟩], none) := by decide

/-- A source on the default registry with a configured mirror and no AWS
credential triple. -/
def srcMirror : Source :=
  ⟨"library/busybox", none, ⟨"", ""⟩, "", "", "",
   some ⟨"mirror.example.com", ⟨"", ""⟩⟩⟩

/-- A source carrying the full AWS credential triple and no mirror. -/
def srcAws : Source :=
  ⟨"library/busybox", none, ⟨"", ""⟩, "AKIA", "secret", "us-east-1", none⟩

/-- A world whose registry answers everything with hashA, whose parsers
succeed, and whose ECR exchange succeeds. -/
def worldA : World :=
  ⟨regOkA, fun _ => Except.ok repoA, fun _ => Except.ok repoA,
   fun h => Except.ok h, fun r => r.registry ++ "/" ++ r.repo, true⟩

/-- A registry where the mirror host is unreachable (500 on every verb)
while the origin answers with hashA. -/
def regMirrorDown : Registry :=
  ⟨fun _ ref =>
    if ref.repoOf.registry = "mirror.example.com" then
      RegResult.err (RegError.transport 500)
    else RegResult.ok hashA⟩

/-- worldA with the mirror host down. -/
def worldB : World :=
  ⟨regMirrorDown, fun _ => Except.ok repoA, fun _ => Except.ok repoA,
   fun h => Except.ok h, fun r => r.registry ++ "/" ++ r.repo, true⟩

/-- worldA with a failing ECR credential exchange. -/
def worldEcrFail : World :=
  ⟨regOkA, fun _ => Except.ok repoA, fun _ => Except.ok repoA,
   fun h => Except.ok h, fun r => r.registry ++ "/" ++ r.repo, false⟩

/-! Helper lemmas on the produced logs. -/

/-- The log of headOrGet is either the single HEAD request or the HEAD
request followed by the GET fallback. -/
theorem headOrGet_log_eq (reg : Registry) (a : Option BasicCredentials)
    (ref : Reference) :
    (headOrGet reg a ref).2 = [⟨Verb.head, ref, a⟩] ∨
    (headOrGet reg a ref).2 = [⟨Verb.head, ref, a⟩, ⟨Verb.get, ref, a⟩] := by
  unfold headOrGet
  cases reg.respond Verb.head ref
  · exact Or.inl rfl
  · dsimp only
    split
    · exact Or.inl rfl
    · cases reg.respond Verb.get ref
      · exact Or.inr rfl
      · dsimp only
        split
        · exact Or.inr rfl
        · exact Or.inr rfl

/-- Every query headOrGet logs targets the given reference with the given
auth, and is a HEAD or a GET. -/
theorem headOrGet_log_mem (reg : Registry) (a : Option BasicCredentials)
    (ref : Reference) (q : Query) (hq : q ∈ (headOrGet reg a ref).2) :
    q = ⟨Verb.head, ref, a⟩ ∨ q = ⟨Verb.get, ref, a⟩ := by
  rcases headOrGet_log_eq reg a ref with h | h <;> rw [h] at hq
  · exact Or.inl (by simpa using hq)
  · simpa using hq

/-- headOrGet always issues the HEAD request first. -/
theorem headOrGet_log_head (reg : Registry) (a : Option BasicCredentials)
    (ref : Reference) :
    ∃ rest, (headOrGet reg a ref).2 = ⟨Verb.head, ref, a⟩ :: rest := by
  rcases headOrGet_log_eq reg a ref with h | h
  · exact ⟨[], h⟩
  · exact ⟨[⟨Verb.get, ref, a⟩], h⟩

/-- Every query performCheck logs carries exactly the auth derived from
the principal and targets the given repository (as its tag, or as a
digest reference within it). -/
theorem performCheck_log_mem (reg : Registry) (p : BasicCredentials)
    (v : Option Version) (repo : Repository) (t : String) (q : Query)
    (hq : q ∈ (performCheck reg p v repo t).2) :
    q.auth = authOf p ∧ q.ref.repoOf = repo := by
  simp only [performCheck] at hq
  split at hq
  · rcases headOrGet_log_mem _ _ _ _ hq with h | h <;> subst h <;>
      exact ⟨rfl, rfl⟩
  · split at hq
    · split at hq
      · split at hq <;>
        · rcases List.mem_append.1 hq with h | h <;>
            rcases headOrGet_log_mem _ _ _ _ h with h2 | h2 <;> subst h2 <;>
              exact ⟨rfl, rfl⟩
      · rcases headOrGet_log_mem _ _ _ _ hq with h | h <;> subst h <;>
          exact ⟨rfl, rfl⟩
    · rcases headOrGet_log_mem _ _ _ _ hq with h | h <;> subst h <;>
        exact ⟨rfl, rfl⟩

/-- performCheck always issues at least the HEAD on the tag reference. -/
theorem performCheck_log_head (reg : Registry) (p : BasicCredentials)
    (v : Option Version) (repo : Repository) (t : String) :
    (⟨Verb.head, Reference.tag repo t, authOf p⟩ : Query) ∈
      (performCheck reg p v repo t).2 := by
  obtain ⟨rest, hrest⟩ := headOrGet_log_head reg (authOf p) (Reference.tag repo t)
  simp only [performCheck]
  split
  · rw [hrest]
    exact List.mem_cons_self _ _
  · split
    · split
      · split <;> (rw [List.mem_append]; exact Or.inl (hrest ▸ List.mem_cons_self _ _))
      · rw [hrest]
        exact List.mem_cons_self _ _
    · rw [hrest]
      exact List.mem_cons_self _ _

/-- If the registry reports the reference absent (HEAD 404, or HEAD
failing with a non-404 error and GET 404), headOrGet yields
found=false with no error. -/
theorem headOrGet_notfound (reg : Registry) (a : Option BasicCredentials)
    (ref : Reference)
    (h : reg.respond Verb.head ref = RegResult.err (RegError.transport 404) ∨
         (∃ e, reg.respond Verb.head ref = RegResult.err e ∧
            checkMissingManifest e = false) ∧
         reg.respond Verb.get ref = RegResult.err (RegError.transport 404)) :
    (headOrGet reg a ref).1 = ⟨default, false, none⟩ := by
  rcases h with h1 | ⟨⟨e, he, hne⟩, hget⟩
  · unfold headOrGet
    rw [h1]
    rfl
  · unfold headOrGet
    rw [he]
    dsimp only
    rw [if_neg (by simp [hne])]
    rw [hget]
    rfl

/-! Claim theorems. -/

/-- Claim C1, counterexample: against a registry whose HEAD answers 404
while GET would succeed with a digest, headOrGet concludes found=false
with no error from the HEAD alone — no GET fallback request appears in
the log, even though one would have succeeded. -/
theorem C1_counterexample :
    (headOrGet regHead404 none refA).1 = ⟨default, false, none⟩ ∧
    (headOrGet regHead404 none refA).2 = [⟨Verb.head, refA, none⟩] ∧
    regHead404.respond Verb.get refA = RegResult.ok hashA ∧
    (⟨Verb.get, refA, none⟩ : Query) ∉ (headOrGet regHead404 none refA).2 := by
  decide

/-- Claim C1 (amended): a registry-reported 404 on HEAD is immediately
authoritative — headOrGet returns found=false, err=none having issued
only the HEAD request; the GET fallback is issued exactly when HEAD
fails with an error not classified as not-found. -/
theorem C1_head_notfound_final :
    (∀ (reg : Registry) (a : Option BasicCredentials) (ref : Reference),
      reg.respond Verb.head ref = RegResult.err (RegError.transport 404) →
      headOrGet reg a ref = (⟨default, false, none⟩, [⟨Verb.head, ref, a⟩])) ∧
    (∀ (reg : Registry) (a : Option BasicCredentials) (ref : Reference) (e : RegError),
      reg.respond Verb.head ref = RegResult.err e → checkMissingManifest e = false →
      (⟨Verb.get, ref, a⟩ : Query) ∈ (headOrGet reg a ref).2) := by
  constructor
  · intro reg a ref h
    unfold headOrGet
    rw [h]
    rfl
  · intro reg a ref e h hne
    unfold headOrGet
    rw [h]
    dsimp only
    rw [if_neg (by simp [hne])]
    cases reg.respond Verb.get ref
    · simp
    · dsimp only
      split <;> simp

/-- Claim C1, witness for the amended theorem at concrete registries. -/
theorem C1_witness :
    headOrGet regHead404 none refA = (⟨default, false, none⟩, [⟨Verb.head, refA, none⟩]) ∧
    (⟨Verb.get, refA, none⟩ : Query) ∈ (headOrGet reg500 none refA).2 :=
  ⟨C1_head_notfound_final.1 regHead404 none refA rfl,
   C1_head_notfound_final.2 reg500 none refA (RegError.transport 500) rfl rfl⟩

/-- Claim C2: when the tag resolves (found, no error) to a digest that
differs from the supplied previous version's digest, and the digest
reference built from the previous version against the same repository
still resolves (found, no error), performCheck returns exactly the two
versions, previous first, current last. -/
theorem C2_two_versions (reg : Registry) (p : BasicCredentials) (u : Version)
    (repo : Repository) (t : String)
    (h1 : (headOrGet reg (authOf p) (Reference.tag repo t)).1.err = none)
    (h2 : (headOrGet reg (authOf p) (Reference.tag repo t)).1.found = true)
    (h3 : u.digest ≠ (headOrGet reg (authOf p) (Reference.tag repo t)).1.digest.render)
    (h4 : (headOrGet reg (authOf p) (Reference.digest repo u.digest)).1.err = none)
    (h5 : (headOrGet reg (authOf p) (Reference.digest repo u.digest)).1.found = true) :
    (performCheck reg p (some u) repo t).1 =
      ([u, ⟨(headOrGet reg (authOf p) (Reference.tag repo t)).1.digest.render⟩], none) := by
  simp [performCheck, h1, h2, h3, h4, h5]

/-- Claim C2, witness: previous sha256:bbbb differs from current
sha256:aaaa and is still fetchable, so the response is the ordered pair. -/
theorem C2_witness :
    (performCheck regOkA ⟨"", ""⟩ (some ⟨"sha256:bbbb"⟩) repoA "latest").1 =
      ([⟨"sha256:bbbb"⟩,
        ⟨(headOrGet regOkA (authOf ⟨"", ""⟩) (Reference.tag repoA "latest")).1.digest.render⟩],
       none) :=
  C2_two_versions regOkA ⟨"", ""⟩ ⟨"sha256:bbbb"⟩ repoA "latest"
    (by decide) (by decide) (by decide) (by decide) (by decide)

/-- Claim C6: when the tag resolves (found, no error) and the previous
version is absent or carries the same digest, performCheck returns
exactly one version (the current digest) and issues no digest-reference
verification query — every logged request targets the tag reference. -/
theorem C6_single_version (reg : Registry) (p : BasicCredentials)
    (v : Option Version) (repo : Repository) (t : String)
    (h1 : (headOrGet reg (authOf p) (Reference.tag repo t)).1.err = none)
    (h2 : (headOrGet reg (authOf p) (Reference.tag repo t)).1.found = true)
    (h3 : v = none ∨ ∃ u, v = some u ∧
      u.digest = (headOrGet reg (authOf p) (Reference.tag repo t)).1.digest.render) :
    (performCheck reg p v repo t).1 =
      ([⟨(headOrGet reg (authOf p) (Reference.tag repo t)).1.digest.render⟩], none) ∧
    ∀ q ∈ (performCheck reg p v repo t).2, q.ref = Reference.tag repo t := by
  rcases h3 with h3 | ⟨u, h3, hu⟩ <;> subst h3
  · constructor
    · simp [performCheck, h1, h2]
    · intro q hq
      simp only [performCheck] at hq
      split at hq
      · next e heq => rw [h1] at heq; cases heq
      · rcases headOrGet_log_mem _ _ _ _ hq with h | h <;> subst h <;> rfl
  · constructor
    · simp [performCheck, h1, h2, hu]
    · intro q hq
      simp only [performCheck] at hq
      split at hq
      · next e heq => rw [h1] at heq; cases heq
      · rw [if_neg (by simp [hu])] at hq
        rcases headOrGet_log_mem _ _ _ _ hq with h | h <;> subst h <;> rfl

/-- Claim C6, witness: same digest as the previous version gives the
singleton response with only tag queries logged. -/
theorem C6_witness :
    (performCheck regOkA ⟨"", ""⟩ (some ⟨"sha256:aaaa"⟩) repoA "latest").1 =
      ([⟨(headOrGet regOkA (authOf ⟨"", ""⟩) (Reference.tag repoA "latest")).1.digest.render⟩],
       none) ∧
    ∀ q ∈ (performCheck regOkA ⟨"", ""⟩ (some ⟨"sha256:aaaa"⟩) repoA "latest").2,
      q.ref = Reference.tag repoA "latest" :=
  C6_single_version regOkA ⟨"", ""⟩ (some ⟨"sha256:aaaa"⟩) repoA "latest"
    (by decide) (by decide) (Or.inr ⟨⟨"sha256:aaaa"⟩, rfl, by decide⟩)

/-- Claim C7: when the registry reports the tag absent — a 404 on HEAD,
or a non-404 HEAD failure followed by a 404 on the GET fallback — the
response is empty with no error, whatever previous version was given. -/
theorem C7_absent_tag_empty (reg : Registry) (p : BasicCredentials)
    (v : Option Version) (repo : Repository) (t : String)
    (h : reg.respond Verb.head (Reference.tag repo t) =
           RegResult.err (RegError.transport 404) ∨
         (∃ e, reg.respond Verb.head (Reference.tag repo t) = RegResult.err e ∧
            checkMissingManifest e = false) ∧
         reg.respond Verb.get (Reference.tag repo t) =
           RegResult.err (RegError.transport 404)) :
    (performCheck reg p v repo t).1 = ([], none) := by
  have hres := headOrGet_notfound reg (authOf p) (Reference.tag repo t) h
  cases v <;> simp [performCheck, hres]

/-- Claim C7, witness: a registry that 404s everything yields the empty
response with no error, with and without a previous version. -/
theorem C7_witness :
    (performCheck regGone ⟨"", ""⟩ (some ⟨"sha256:bbbb"⟩) repoA "latest").1 = ([], none) :=
  C7_absent_tag_empty regGone ⟨"", ""⟩ (some ⟨"sha256:bbbb"⟩) repoA "latest"
    (Or.inl rfl)

/-- Claim C9, counterexample: with username "user" and empty password the
request goes out anonymous (auth none), while the spec's wording — the
pair attached as-is, only an empty pair meaning anonymous — would attach
the pair. -/
theorem C9_counterexample :
    (performCheck regOkA ⟨"user", ""⟩ none repoA "latest").2 =
      [⟨Verb.head, refA, none⟩] ∧
    specAuthContext ⟨"user", ""⟩ = some ⟨"user", ""⟩ ∧
    (none : Option BasicCredentials) ≠ specAuthContext ⟨"user", ""⟩ := by
  decide

/-- Claim C9 (amended): every request performCheck issues carries the
static pair exactly when both username and password are non-empty, and
is anonymous (no credentials attached) otherwise. -/
theorem C9_auth_both_nonempty (reg : Registry) (p : BasicCredentials)
    (v : Option Version) (repo : Repository) (t : String) (q : Query)
    (hq : q ∈ (performCheck reg p v repo t).2) :
    q.auth = if p.username ≠ "" ∧ p.password ≠ "" then some p else none :=
  (performCheck_log_mem reg p v repo t q hq).1

/-- Claim C9, witness: the logged HEAD of a concrete run with username
"user" and empty password carries no credentials. -/
theorem C9_witness :
    (⟨Verb.head, refA, none⟩ : Query).auth =
      if ("user" : String) ≠ "" ∧ ("" : String) ≠ "" then
        some ⟨"user", ""⟩ else none :=
  C9_auth_both_nonempty regOkA ⟨"user", ""⟩ none repoA "latest"
    ⟨Verb.head, refA, none⟩ (by decide)

/-- Claim C10: checkMissingManifest classifies an error as not-found
exactly when it is a transport error with status code 404, and every
error headOrGet propagates as a hard error is not so classified. -/
theorem C10_notfound_iff_404 :
    (∀ e, checkMissingManifest e = true ↔ e = RegError.transport 404) ∧
    (∀ (reg : Registry) (a : Option BasicCredentials) (ref : Reference) (e : RegError),
      (headOrGet reg a ref).1.err = some e → checkMissingManifest e = false) := by
  constructor
  · intro e
    cases e with
    | transport c =>
      simp only [checkMissingManifest, beq_iff_eq]
      constructor
      · intro h; subst h; rfl
      · intro h; cases h; rfl
    | other m =>
      simp [checkMissingManifest]
  · intro reg a ref e h
    unfold headOrGet at h
    cases h1 : reg.respond Verb.head ref <;> rw [h1] at h
    · simp at h
    · dsimp only at h
      split at h
      · simp at h
      · cases h2 : reg.respond Verb.get ref <;> rw [h2] at h
        · simp at h
        · dsimp only at h
          split at h
          · simp at h
          · next hne =>
              simp only [Option.some.injEq] at h
              subst h
              simpa using hne

/-- Claim C10, witness: 404 is classified not-found; the 500 a concrete
run propagates is classified a hard error. -/
theorem C10_witness :
    checkMissingManifest (RegError.transport 404) = true ∧
    checkMissingManifest (RegError.transport 500) = false :=
  ⟨(C10_notfound_iff_404.1 (RegError.transport 404)).mpr rfl,
   C10_notfound_iff_404.2 reg500 none refA (RegError.transport 500) (by decide)⟩

/-- performCheck only reports a hard error alongside an empty response. -/
theorem performCheck_ne_nil_err (reg : Registry) (p : BasicCredentials)
    (v : Option Version) (repo : Repository) (t : String)
    (h : (performCheck reg p v repo t).1.1 ≠ []) :
    (performCheck reg p v repo t).1.2 = none := by
  by_contra hne
  apply h
  revert hne
  simp only [performCheck]
  split
  · intro _
    rfl
  · split
    · split
      · split
        · intro _
          rfl
        · intro hne
          exact absurd rfl hne
      · intro hne
        exact absurd rfl hne
    · intro hne
      exact absurd rfl hne

/-- Every event the origin step emits is a registry query tagged with the
origin endpoint, drawn from the origin performCheck log. -/
theorem originStep_events (w : World) (s : Source) (v : Option Version)
    (repo : Repository) (ev : Event) (hev : ev ∈ (originStep w s v repo).2) :
    ∃ q, ev = Event.regQuery Endpoint.origin q ∧
      q ∈ (performCheck w.registry s.basicCredentials v repo s.tagOrLatest).2 := by
  simp only [originStep] at hev
  split at hev <;>
    (rw [List.mem_map] at hev; obtain ⟨q, hq, hqe⟩ := hev; exact ⟨q, hqe.symm, hq⟩)

/-- The origin step always issues the HEAD on the origin tag with the
origin credentials. -/
theorem originStep_events_head (w : World) (s : Source) (v : Option Version)
    (repo : Repository) :
    Event.regQuery Endpoint.origin
      ⟨Verb.head, Reference.tag repo s.tagOrLatest, authOf s.basicCredentials⟩ ∈
      (originStep w s v repo).2 := by
  simp only [originStep]
  split <;> exact List.mem_map_of_mem _ (performCheck_log_head _ _ _ _ _)

/-- Every element of mirrorWarnings is a warning event. -/
theorem mirrorWarnings_shape (mreg : String) (resp : List Version)
    (err : Option RegError) (ev : Event) (hev : ev ∈ mirrorWarnings mreg resp err) :
    ∃ msg, ev = Event.warning msg := by
  unfold mirrorWarnings at hev
  split at hev
  · simp at hev
    exact ⟨_, hev⟩
  · split at hev
    · simp at hev
      exact ⟨_, hev⟩
    · simp at hev

/-- An empty mirror response always produces a warning line. -/
theorem mirrorWarnings_warn (mreg : String) (err : Option RegError) :
    ∃ msg, Event.warning msg ∈ mirrorWarnings mreg [] err := by
  cases err <;> simp [mirrorWarnings]

/-- Every event the mirror attempt emits is a mirror-tagged registry
query or a warning. -/
theorem mirrorAttempt_events (w : World) (m : RegistryMirrorConfig) (s : Source)
    (v : Option Version) (repo : Repository) (resp : List Version) (mevs : List Event)
    (h : mirrorAttempt w m s v repo = Except.ok (resp, mevs)) (ev : Event)
    (hev : ev ∈ mevs) :
    (∃ q, ev = Event.regQuery Endpoint.mirror q) ∨ ∃ msg, ev = Event.warning msg := by
  simp only [mirrorAttempt] at h
  split at h
  · simp at h
  · split at h
    · simp at h
    · simp only [Except.ok.injEq, Prod.mk.injEq] at h
      obtain ⟨h1, h2⟩ := h
      subst h2
      rcases List.mem_append.1 hev with hev | hev
      · rw [List.mem_map] at hev
        obtain ⟨q, hq, hqe⟩ := hev
        exact Or.inl ⟨q, hqe.symm⟩
      · exact Or.inr (mirrorWarnings_shape _ _ _ _ hev)

/-- When both reference constructions succeed, the mirror attempt is
exactly the performCheck against the mirror-host repository with the
mirror credentials, plus its warning lines. -/
theorem mirrorAttempt_eq (w : World) (m : RegistryMirrorConfig) (s : Source)
    (v : Option Version) (repo : Repository) (r0 : Repository) (mreg : String)
    (hc : w.newRepository (w.repositoryName repo) = Except.ok r0)
    (hr : w.newRegistryWeak m.host = Except.ok mreg) :
    mirrorAttempt w m s v repo = Except.ok
      ((performCheck w.registry m.basicCredentials v ⟨mreg, r0.repo⟩ s.tagOrLatest).1.1,
       (performCheck w.registry m.basicCredentials v ⟨mreg, r0.repo⟩ s.tagOrLatest).2.map
           (Event.regQuery Endpoint.mirror) ++
         mirrorWarnings mreg
           (performCheck w.registry m.basicCredentials v ⟨mreg, r0.repo⟩ s.tagOrLatest).1.1
           (performCheck w.registry m.basicCredentials v ⟨mreg, r0.repo⟩ s.tagOrLatest).1.2) := by
  simp only [mirrorAttempt, hc, hr]

/-- With no mirror configured, or a repository on a non-default registry,
executeWithAuth is exactly the origin step after the parse. -/
theorem executeWithAuth_origin (w : World) (s : Source) (v : Option Version)
    (repo : Repository)
    (hp : w.newRepositoryWeak s.repository = Except.ok repo)
    (hm : s.registryMirror = none ∨ repo.registry ≠ defaultRegistry) :
    executeWithAuth w s v =
      ((originStep w s v repo).1,
       Event.repoParse s.repository :: (originStep w s v repo).2) := by
  rcases hm with hm | hm
  · simp only [executeWithAuth, hp, hm]
  · simp only [executeWithAuth, hp]
    cases hsm : s.registryMirror
    · rfl
    · simp only
      rw [if_neg hm]

/-- With an eligible mirror whose attempt returned, executeWithAuth
either emits the mirror response directly (non-empty) or falls through
to the origin step (empty). -/
theorem executeWithAuth_mirror (w : World) (s : Source) (v : Option Version)
    (repo : Repository) (m : RegistryMirrorConfig) (resp : List Version)
    (mevs : List Event)
    (hp : w.newRepositoryWeak s.repository = Except.ok repo)
    (hm : s.registryMirror = some m)
    (hd : repo.registry = defaultRegistry)
    (hma : mirrorAttempt w m s v repo = Except.ok (resp, mevs)) :
    executeWithAuth w s v =
      if resp.isEmpty then
        ((originStep w s v repo).1,
         Event.repoParse s.repository :: (mevs ++ (originStep w s v repo).2))
      else (Except.ok resp, Event.repoParse s.repository :: mevs) := by
  simp only [executeWithAuth, hp, hm, hd, hma]
  rw [if_pos trivial]

/-- Under a successful (or unconfigured) ECR exchange, the result of
Execute is that of executeWithAuth. -/
theorem Execute_fst (w : World) (s : Source) (v : Option Version)
    (hecr : w.ecrAuth = true) :
    (Execute w s v).1 = (executeWithAuth w s v).1 := by
  simp only [Execute, hecr]
  split
  · simp
  · rfl

/-- Under a successful (or unconfigured) ECR exchange, the non-ECR events
of Execute are those of executeWithAuth. -/
theorem Execute_mem_iff (w : World) (s : Source) (v : Option Version)
    (hecr : w.ecrAuth = true) (ev : Event) (hne : ev ≠ Event.ecrAuthAttempt) :
    (ev ∈ (Execute w s v).2 ↔ ev ∈ (executeWithAuth w s v).2) := by
  simp only [Execute, hecr]
  split
  · simp [hne]
  · exact Iff.rfl

/-- The ECR exchange attempt never appears among the post-auth events. -/
theorem ecrAttempt_not_in_executeWithAuth (w : World) (s : Source)
    (v : Option Version) :
    Event.ecrAuthAttempt ∉ (executeWithAuth w s v).2 := by
  intro hev
  simp only [executeWithAuth] at hev
  split at hev
  · simp at hev
  · split at hev
    · split at hev
      · split at hev
        · simp at hev
        · split at hev
          · rename_i resp mevs heq _
            simp only [List.mem_cons, List.mem_append] at hev
            rcases hev with hev | hev | hev
            · cases hev
            · rcases mirrorAttempt_events _ _ _ _ _ _ _ heq _ hev with ⟨q, hq⟩ | ⟨msg, hq⟩ <;>
                cases hq
            · obtain ⟨q, hq, _⟩ := originStep_events _ _ _ _ _ hev
              cases hq
          · rename_i resp mevs heq _
            simp only [List.mem_cons] at hev
            rcases hev with hev | hev
            · cases hev
            · rcases mirrorAttempt_events _ _ _ _ _ _ _ heq _ hev with ⟨q, hq⟩ | ⟨msg, hq⟩ <;>
                cases hq
      · simp only [List.mem_cons] at hev
        rcases hev with hev | hev
        · cases hev
        · obtain ⟨q, hq, _⟩ := originStep_events _ _ _ _ _ hev
          cases hq
    · simp only [List.mem_cons] at hev
      rcases hev with hev | hev
      · cases hev
      · obtain ⟨q, hq, _⟩ := originStep_events _ _ _ _ _ hev
        cases hq

/-- Claim C3: with a working ECR step and parsers, a mirror-tagged
registry query occurs iff a mirror is configured and the parsed
repository sits on the default registry; when ineligible, every query is
origin-tagged and targets the origin repository — it is never redirected
to the mirror. -/
theorem C3_mirror_iff_eligible (w : World) (s : Source) (v : Option Version)
    (repo : Repository)
    (hecr : w.ecrAuth = true)
    (hp : w.newRepositoryWeak s.repository = Except.ok repo)
    (hcons : ∀ str, ∃ r, w.newRepository str = Except.ok r)
    (hreg : ∀ str, ∃ h, w.newRegistryWeak str = Except.ok h) :
    ((∃ q, Event.regQuery Endpoint.mirror q ∈ (Execute w s v).2) ↔
      s.registryMirror.isSome = true ∧ repo.registry = defaultRegistry) ∧
    ((s.registryMirror = none ∨ repo.registry ≠ defaultRegistry) →
      ∀ ep q, Event.regQuery ep q ∈ (Execute w s v).2 →
        ep = Endpoint.origin ∧ q.ref.repoOf = repo) := by
  by_cases helig : s.registryMirror.isSome = true ∧ repo.registry = defaultRegistry
  · obtain ⟨hsome, hd⟩ := helig
    obtain ⟨m, hm⟩ := Option.isSome_iff_exists.mp hsome
    obtain ⟨r0, hc⟩ := hcons (w.repositoryName repo)
    obtain ⟨mreg, hr⟩ := hreg m.host
    have hma := mirrorAttempt_eq w m s v repo r0 mreg hc hr
    have hew := executeWithAuth_mirror w s v repo m _ _ hp hm hd hma
    constructor
    · constructor
      · intro _
        exact ⟨hsome, hd⟩
      · intro _
        refine ⟨⟨Verb.head, Reference.tag ⟨mreg, r0.repo⟩ s.tagOrLatest,
                 authOf m.basicCredentials⟩, ?_⟩
        rw [Execute_mem_iff w s v hecr _ (by intro h; cases h)]
        rw [hew]
        split
        · apply List.mem_cons_of_mem
          apply List.mem_append.2
          left
          apply List.mem_append.2
          left
          exact List.mem_map_of_mem _ (performCheck_log_head _ _ _ _ _)
        · apply List.mem_cons_of_mem
          apply List.mem_append.2
          left
          exact List.mem_map_of_mem _ (performCheck_log_head _ _ _ _ _)
    · intro hin
      rcases hin with hin | hin
      · rw [hm] at hin
        cases hin
      · exact absurd hd hin
  · have hm2 : s.registryMirror = none ∨ repo.registry ≠ defaultRegistry := by
      rcases not_and_or.mp helig with h | h
      · left
        exact Option.not_isSome_iff_eq_none.mp h
      · right
        exact h
    have hew := executeWithAuth_origin w s v repo hp hm2
    constructor
    · constructor
      · rintro ⟨q, hq⟩
        rw [Execute_mem_iff w s v hecr _ (by intro h; cases h)] at hq
        rw [hew] at hq
        rcases List.mem_cons.mp hq with hq | hq
        · cases hq
        · obtain ⟨q2, hq2, _⟩ := originStep_events _ _ _ _ _ hq
          simp at hq2
      · intro h
        exact absurd h helig
    · intro _ ep q hq
      rw [Execute_mem_iff w s v hecr _ (by intro h; cases h)] at hq
      rw [hew] at hq
      rcases List.mem_cons.mp hq with hq | hq
      · cases hq
      · obtain ⟨q2, hq2, hq2m⟩ := originStep_events _ _ _ _ _ hq
        simp only [Event.regQuery.injEq] at hq2
        obtain ⟨hep, hqq⟩ := hq2
        subst hep
        subst hqq
        exact ⟨rfl, (performCheck_log_mem _ _ _ _ _ _ hq2m).2⟩

/-- Claim C3, witness at a concrete world: mirror configured and default
registry, so the eligibility iff holds concretely. -/
theorem C3_witness :
    ((∃ q, Event.regQuery Endpoint.mirror q ∈ (Execute worldA srcMirror none).2) ↔
      srcMirror.registryMirror.isSome = true ∧ repoA.registry = defaultRegistry) ∧
    ((srcMirror.registryMirror = none ∨ repoA.registry ≠ defaultRegistry) →
      ∀ ep q, Event.regQuery ep q ∈ (Execute worldA srcMirror none).2 →
        ep = Endpoint.origin ∧ q.ref.repoOf = repoA) :=
  C3_mirror_iff_eligible worldA srcMirror none repoA rfl rfl
    (fun _ => ⟨repoA, rfl⟩) (fun str => ⟨str, rfl⟩)

/-- Claim C5: with an eligible mirror whose performCheck succeeds with a
non-empty response, Execute emits exactly that mirror response and no
origin-tagged query is ever issued. -/
theorem C5_mirror_short_circuit (w : World) (s : Source) (v : Option Version)
    (repo : Repository) (m : RegistryMirrorConfig) (r0 : Repository) (mreg : String)
    (hecr : w.ecrAuth = true)
    (hp : w.newRepositoryWeak s.repository = Except.ok repo)
    (hm : s.registryMirror = some m)
    (hd : repo.registry = defaultRegistry)
    (hc : w.newRepository (w.repositoryName repo) = Except.ok r0)
    (hr : w.newRegistryWeak m.host = Except.ok mreg)
    (hne : (performCheck w.registry m.basicCredentials v ⟨mreg, r0.repo⟩
      s.tagOrLatest).1.1 ≠ []) :
    (Execute w s v).1 =
      Except.ok (performCheck w.registry m.basicCredentials v ⟨mreg, r0.repo⟩
        s.tagOrLatest).1.1 ∧
    ∀ q, Event.regQuery Endpoint.origin q ∉ (Execute w s v).2 := by
  have hma := mirrorAttempt_eq w m s v repo r0 mreg hc hr
  have hew := executeWithAuth_mirror w s v repo m _ _ hp hm hd hma
  have hie : (performCheck w.registry m.basicCredentials v ⟨mreg, r0.repo⟩
      s.tagOrLatest).1.1.isEmpty = false := by
    rcases hx : (performCheck w.registry m.basicCredentials v ⟨mreg, r0.repo⟩
        s.tagOrLatest).1.1 with _ | ⟨a, l⟩
    · exact absurd hx hne
    · rfl
  rw [if_neg (show ¬((performCheck w.registry m.basicCredentials v ⟨mreg, r0.repo⟩
      s.tagOrLatest).1.1.isEmpty = true) by rw [hie]; exact Bool.false_ne_true)] at hew
  constructor
  · rw [Execute_fst w s v hecr, hew]
  · intro q hq
    rw [Execute_mem_iff w s v hecr _ (by intro h; cases h)] at hq
    rw [hew] at hq
    rcases List.mem_cons.mp hq with hq | hq
    · cases hq
    · rcases List.mem_append.mp hq with hq | hq
      · rw [List.mem_map] at hq
        obtain ⟨q2, _, hq2⟩ := hq
        simp at hq2
      · obtain ⟨msg, hmsg⟩ := mirrorWarnings_shape _ _ _ _ hq
        cases hmsg

/-- Claim C5, witness: the mirror on worldA answers, so the response is
the mirror's and no origin query appears. -/
theorem C5_witness :
    (Execute worldA srcMirror none).1 =
      Except.ok (performCheck regOkA ⟨"", ""⟩ none
        ⟨"mirror.example.com", "library/busybox"⟩ "latest").1.1 ∧
    ∀ q, Event.regQuery Endpoint.origin q ∉ (Execute worldA srcMirror none).2 :=
  C5_mirror_short_circuit worldA srcMirror none repoA
    ⟨"mirror.example.com", ⟨"", ""⟩⟩ repoA "mirror.example.com"
    rfl rfl rfl rfl rfl rfl (by decide)

/-- Claim C4: with an eligible mirror whose performCheck errors or comes
back empty, the mirror failure is only logged as a warning, the origin
tag (rebuilt from the origin repository) is queried with the origin
credentials, and the overall outcome is exactly the origin step's. -/
theorem C4_mirror_failure_recovered (w : World) (s : Source) (v : Option Version)
    (repo : Repository) (m : RegistryMirrorConfig) (r0 : Repository) (mreg : String)
    (hecr : w.ecrAuth = true)
    (hp : w.newRepositoryWeak s.repository = Except.ok repo)
    (hm : s.registryMirror = some m)
    (hd : repo.registry = defaultRegistry)
    (hc : w.newRepository (w.repositoryName repo) = Except.ok r0)
    (hr : w.newRegistryWeak m.host = Except.ok mreg)
    (hfail : (performCheck w.registry m.basicCredentials v ⟨mreg, r0.repo⟩
        s.tagOrLatest).1.2 ≠ none ∨
      (performCheck w.registry m.basicCredentials v ⟨mreg, r0.repo⟩
        s.tagOrLatest).1.1 = []) :
    (Execute w s v).1 = (originStep w s v repo).1 ∧
    (∃ msg, Event.warning msg ∈ (Execute w s v).2) ∧
    Event.regQuery Endpoint.origin
      ⟨Verb.head, Reference.tag repo s.tagOrLatest, authOf s.basicCredentials⟩ ∈
      (Execute w s v).2 := by
  have hempty : (performCheck w.registry m.basicCredentials v ⟨mreg, r0.repo⟩
      s.tagOrLatest).1.1 = [] := by
    rcases hfail with hf | he
    · by_contra hne
      exact hf (performCheck_ne_nil_err _ _ _ _ _ hne)
    · exact he
  have hma := mirrorAttempt_eq w m s v repo r0 mreg hc hr
  have hew := executeWithAuth_mirror w s v repo m _ _ hp hm hd hma
  rw [if_pos (show (performCheck w.registry m.basicCredentials v ⟨mreg, r0.repo⟩
      s.tagOrLatest).1.1.isEmpty = true by rw [hempty]; rfl)] at hew
  refine ⟨?_, ?_, ?_⟩
  · rw [Execute_fst w s v hecr, hew]
  · obtain ⟨msg, hmsg⟩ := mirrorWarnings_warn mreg
      (performCheck w.registry m.basicCredentials v ⟨mreg, r0.repo⟩ s.tagOrLatest).1.2
    refine ⟨msg, ?_⟩
    rw [Execute_mem_iff w s v hecr _ (by intro h; cases h)]
    rw [hew]
    apply List.mem_cons_of_mem
    apply List.mem_append.2
    left
    apply List.mem_append.2
    right
    rw [hempty]
    exact hmsg
  · rw [Execute_mem_iff w s v hecr _ (by intro h; cases h)]
    rw [hew]
    apply List.mem_cons_of_mem
    apply List.mem_append.2
    right
    exact originStep_events_head w s v repo

/-- Claim C4, witness: the mirror host of worldB is down (500s), yet the
check recovers: origin outcome, a warning, and the origin HEAD issued. -/
theorem C4_witness :
    (Execute worldB srcMirror none).1 = (originStep worldB srcMirror none repoA).1 ∧
    (∃ msg, Event.warning msg ∈ (Execute worldB srcMirror none).2) ∧
    Event.regQuery Endpoint.origin
      ⟨Verb.head, Reference.tag repoA srcMirror.tagOrLatest,
       authOf srcMirror.basicCredentials⟩ ∈ (Execute worldB srcMirror none).2 :=
  C4_mirror_failure_recovered worldB srcMirror none repoA
    ⟨"mirror.example.com", ⟨"", ""⟩⟩ repoA "mirror.example.com"
    rfl rfl rfl rfl rfl rfl (Or.inl (by decide))

/-- Claim C8: the ECR exchange is attempted exactly when all three AWS
fields are non-empty, and when attempted and failing, Execute stops with
the authentication error before any repository parse or registry query —
the only event is the exchange attempt. -/
theorem C8_ecr_gate (w : World) (s : Source) (v : Option Version) :
    ((Event.ecrAuthAttempt ∈ (Execute w s v).2) ↔
      (s.awsAccessKeyId ≠ "" ∧ s.awsSecretAccessKey ≠ "" ∧ s.awsRegion ≠ "")) ∧
    (s.awsAccessKeyId ≠ "" ∧ s.awsSecretAccessKey ≠ "" ∧ s.awsRegion ≠ "" →
      w.ecrAuth = false →
      Execute w s v =
        (Except.error "cannot authenticate with ECR", [Event.ecrAuthAttempt])) := by
  constructor
  · constructor
    · intro hin
      by_contra htr
      simp only [Execute] at hin
      rw [if_neg htr] at hin
      exact ecrAttempt_not_in_executeWithAuth w s v hin
    · intro htr
      simp only [Execute]
      rw [if_pos htr]
      cases hE : w.ecrAuth
      · simp
      · simp
  · intro htr hecr
    simp only [Execute, hecr]
    rw [if_pos htr]
    rfl

/-- Claim C8, witness: a failing exchange on a fully configured triple
stops the check at once, with only the attempt event. -/
theorem C8_witness :
    Execute worldEcrFail srcAws none =
      (Except.error "cannot authenticate with ECR", [Event.ecrAuthAttempt]) :=
  (C8_ecr_gate worldEcrFail srcAws none).2 ⟨by decide, by decide, by decide⟩ rfl
